import Mathlib

/-
Shallow embedding of the mouse_locomotion repository (Python) in Lean 4.

Numeric state is modelled over the rational numbers.  Transcendental library
primitives (math.exp, math.pow with non-integral exponent, math.tanh, math.log
and the square root inside numpy.linalg.norm) are external dependencies of the
program; they are abstracted as a parameter record `MathOps`, since no claim
settled here depends on an analytic property of those primitives.  Machine
floats are modelled as exact rationals; claims about the code's formulas are
claims about the real-number formulas the code writes down.  Python division
raising ZeroDivisionError is kept out of the models' domains by explicit
hypotheses on the divisors where relevant; `Rat` division is total.
-/

namespace MouseLoco

/-- Abstract transcendental primitives used by the Python code through the
math/numpy libraries.  `powf x y` stands for math.pow x y with a possibly
non-integral exponent; integral exponents in the source are translated to
exact ring powers. -/
structure MathOps where
  exp : ℚ → ℚ
  powf : ℚ → ℚ → ℚ
  tanh : ℚ → ℚ
  log : ℚ → ℚ
  sqrt : ℚ → ℚ

/-- Sample instantiation of `MathOps` used to evaluate models on concrete
inputs.  `Rat.sqrt` agrees with the real square root on perfect squares,
which is the only place witnesses below evaluate it; the remaining fields are
irrelevant placeholders for those witnesses. -/
def exactOps : MathOps :=
  { exp := fun _ => 0
    powf := fun _ _ => 0
    tanh := fun _ => 0
    log := fun _ => 0
    sqrt := Rat.sqrt }

/-- A 3-component vector (mathutils.Vector / numpy array of length 3). -/
structure Vec3 where
  x : ℚ
  y : ℚ
  z : ℚ
deriving DecidableEq

/-- Componentwise difference of two vectors. -/
def vsub (a b : Vec3) : Vec3 := ⟨a.x - b.x, a.y - b.y, a.z - b.z⟩

/-- Squared Euclidean norm; the norm itself is `ops.sqrt` of this. -/
def normSq (a : Vec3) : ℚ := a.x ^ 2 + a.y ^ 2 + a.z ^ 2

/-- Python exception kinds raised by the code paths modelled here. -/
inductive PyErr where
  | typeError
  | keyError
  | attributeError
deriving DecidableEq

/-- Python values appearing in the modelled dynamic contexts: string and
integer operands of `+`, and the boolean/dict payloads inspected by
Optimization.update. -/
inductive PyVal where
  | pyStr (s : String)
  | pyInt (n : ℤ)
  | pyBool (b : Bool)
  | pyDict (entries : List (String × ℤ))
deriving DecidableEq

/-- Python binary `+` on the value kinds above: string + string concatenates,
int + int adds, any mixed combination (in particular str + int, the case hit
by Leg.update's error message) raises TypeError. -/
def pyAdd : PyVal → PyVal → Except PyErr PyVal
  | .pyStr a, .pyStr b => .ok (.pyStr (a ++ b))
  | .pyInt a, .pyInt b => .ok (.pyInt (a + b))
  | _, _ => .error .typeError

/-- Muscle fiber state: one record carrying every instance attribute assigned
by Fiber.__init__ together with the subclass attributes of SlowTwitchFiber
(yielding block) and FastTwitchFiber (sag block and u_r).  Attributes a given
fiber type never creates are initialised to 0 by the base constructor and are
never read on that type's code paths. -/
structure FiberState where
  h : ℚ
  f_05 : ℚ
  length : ℚ
  max_length : ℚ
  length_0 : ℚ
  f_tet : ℚ
  velocity : ℚ
  f_pcsa : ℚ
  f_min : ℚ
  f_max : ℚ
  f_env : ℚ
  u_th : ℚ
  t_f1 : ℚ
  t_f2 : ℚ
  t_f3 : ℚ
  t_f4 : ℚ
  tf : ℚ
  f_int : ℚ
  f_eff : ℚ
  af : ℚ
  n_f0 : ℚ
  n_f1 : ℚ
  nf : ℚ
  activation_frequency : ℚ
  beta : ℚ
  omega : ℚ
  rho : ℚ
  max_velocity : ℚ
  c_v0 : ℚ
  c_v1 : ℚ
  a_v0 : ℚ
  a_v1 : ℚ
  a_v2 : ℚ
  b_v : ℚ
  c1 : ℚ
  k1 : ℚ
  l_r1 : ℚ
  eta : ℚ
  c2 : ℚ
  k2 : ℚ
  l_r2 : ℚ
  c_t : ℚ
  k_t : ℚ
  l_t : ℚ
  e1 : ℚ
  e2 : ℚ
  e3 : ℚ
  e4 : ℚ
  m : ℚ
  r : ℚ
  a : ℚ
  initial_energy : ℚ
  c_gamma : ℚ
  v_gamma : ℚ
  t_gamma : ℚ
  yielding : ℚ
  u_r : ℚ
  as1 : ℚ
  as2 : ℚ
  ts : ℚ
  sag : ℚ
deriving DecidableEq

/-- Fiber.__init__ (src/src/muscles/fiber.py).  Subclass-only attributes are
initialised to 0 here and set by the subclass constructors below. -/
def mkFiber (h f_pcsa length velocity f_05 : ℚ) : FiberState :=
  { h := h
    f_05 := f_05
    length := length
    max_length := 0
    length_0 := 0
    f_tet := 0
    velocity := velocity
    f_pcsa := f_pcsa
    f_min := 1/2 * f_05
    f_max := 2 * f_05
    f_env := 0
    u_th := 1/1000
    t_f1 := 343/10
    t_f2 := 227/10
    t_f3 := 47
    t_f4 := 252/10
    tf := 0
    f_int := 0
    f_eff := 0
    af := 56/100
    n_f0 := 21/10
    n_f1 := 5
    nf := 0
    activation_frequency := 0
    beta := 230/100
    omega := 112/100
    rho := 162/100
    max_velocity := -788/100
    c_v0 := 588/100
    c_v1 := 0
    a_v0 := -470/100
    a_v1 := 841/100
    a_v2 := -534/100
    b_v := 35/100
    c1 := 23
    k1 := 46/1000
    l_r1 := 117/100
    eta := 1/100
    c2 := -2/100
    k2 := -21
    l_r2 := 70/100
    c_t := 278/10
    k_t := 47/10000
    l_t := 964/1000
    e1 := -766/10
    e2 := -792
    e3 := 124
    e4 := 72/100
    m := 25/100
    r := 3/2
    a := 33/100
    initial_energy := 0
    c_gamma := 0
    v_gamma := 0
    t_gamma := 0
    yielding := 0
    u_r := 0
    as1 := 0
    as2 := 0
    ts := 0
    sag := 0 }

/-- SlowTwitchFiber.__init__: base init plus the yielding parameter block. -/
def mkSlowTwitchFiber (h f_pcsa length velocity f_05 : ℚ) : FiberState :=
  { mkFiber h f_pcsa length velocity f_05 with
    c_gamma := 35/100
    v_gamma := 1/10
    t_gamma := 200
    yielding := 0 }

/-- FastTwitchFiber.__init__: base init plus recruitment threshold from the
fractional PCSA, the sag parameter block, and the fast coefficient set. -/
def mkFastTwitchFiber (h pcsa length velocity f_05 : ℚ) : FiberState :=
  { mkFiber h pcsa length velocity f_05 with
    u_r := 8/10
    u_th := pcsa * (8/10)
    as1 := 176/100
    as2 := 96/100
    ts := 43
    sag := 0
    t_f1 := 206/10
    t_f2 := 136/10
    t_f3 := 282/10
    t_f4 := 151/10
    n_f1 := 33/10
    beta := 155/100
    omega := 75/100
    rho := 212/100
    max_velocity := -915/100
    c_v0 := -570/100
    c_v1 := 918/100
    a_v0 := -153/100
    a_v1 := 0
    a_v2 := 0
    b_v := 69/100
    e1 := 145
    e2 := -3322
    e3 := 1530
    e4 := 145/100
    r := 1 }

/-- Fiber.__process_recruitment: the f_env value written for a given spike
frequency. -/
def recruitF (s : FiberState) (spike_frequency : ℚ) : ℚ :=
  if spike_frequency > s.u_th then
    s.f_min + (s.f_max - s.f_min) / (1 - s.u_th) * spike_frequency
  else s.f_min

/-- The derivative argument update_force feeds to Fiber.__process_tf:
`(f_int - f_eff) / tf if tf != 0 else 0.` -/
def dFEffArg (s : FiberState) : ℚ :=
  if s.tf ≠ 0 then (s.f_int - s.f_eff) / s.tf else 0

/-- Fiber.__process_tf applied after recruitment: the tf value written during
an update_force call.  math.pow(length, 2) is the exact square. -/
def tfAfter (s : FiberState) (spike_frequency : ℚ) : ℚ :=
  if dFEffArg s ≥ 0 then
    s.t_f1 * s.length ^ 2 + s.t_f2 * recruitF s spike_frequency
  else (s.t_f3 + s.t_f4 * s.activation_frequency) / s.length

/-- Fiber.__intermediate_firing_frequency as executed inside update_force:
one Euler step of (f_env - f_int) / tf using the freshly written f_env, tf. -/
def fIntAfter (s : FiberState) (spike_frequency : ℚ) : ℚ :=
  s.f_int + s.h * ((recruitF s spike_frequency - s.f_int) / tfAfter s spike_frequency)

/-- Fiber.__effective_firing_frequency as executed inside update_force: one
Euler step of (f_int - f_eff) / tf using the freshly updated f_int. -/
def fEffAfter (s : FiberState) (spike_frequency : ℚ) : ℚ :=
  s.f_eff + s.h * ((fIntAfter s spike_frequency - s.f_eff) / tfAfter s spike_frequency)

/-- Fiber.__process_nf: nf = n_f0 + n_f1 * (1/length - 1). -/
def nfAfter (s : FiberState) : ℚ :=
  s.n_f0 + s.n_f1 * (1 / s.length - 1)

/-- Fiber.__specific_function, the base-class method.  Because every private
method reference `self.__specific_function` inside class Fiber is
name-mangled by Python to `self._Fiber__specific_function`, this method — not
a subclass override — is the one update_force actually invokes.  It returns
the constant 1. -/
def fiberSpecificFunction (s : FiberState) : FiberState × ℚ := (s, 1)

/-- SlowTwitchFiber.__specific_function as written in the source: one Euler
step of the yielding dynamics.  Mangled to
`_SlowTwitchFiber__specific_function`, it is never reached from
Fiber.update_force. -/
def slowSpecificFunction (ops : MathOps) (s : FiberState) : FiberState × ℚ :=
  let d_yielding :=
    (1 - s.c_gamma * (1 - ops.exp (-s.velocity / s.v_gamma)) - s.yielding) / s.t_gamma
  let y := s.yielding + d_yielding * s.h
  ({ s with yielding := y }, y)

/-- The sag attractor FastTwitchFiber.__specific_function selects: as1 when
f_eff < 0.1, else as2. -/
def sagTarget (s : FiberState) : ℚ :=
  if s.f_eff < 1/10 then s.as1 else s.as2

/-- FastTwitchFiber.__specific_function as written in the source.  Note the
assignment is `self.sag = sag_as + d_sag * self.h` — the new sag is the
target plus the step, not the previous sag plus the step.  Mangled to
`_FastTwitchFiber__specific_function`, it is never reached from
Fiber.update_force. -/
def fastSpecificFunction (s : FiberState) : FiberState × ℚ :=
  let sag_as := sagTarget s
  let d_sag := (sag_as - s.sag) / s.ts
  let newSag := sag_as + d_sag * s.h
  ({ s with sag := newSag }, newSag)

/-- Fiber.__activation_frequency as executed inside update_force: by Python
name mangling its `self.__specific_function()` call resolves to the base
`fiberSpecificFunction`, whose returned value is 1 and which leaves the state
unchanged. -/
def actAfter (ops : MathOps) (s : FiberState) (spike_frequency : ℚ) : ℚ :=
  let specific := (fiberSpecificFunction s).2
  1 - ops.exp (-(ops.powf (specific * fEffAfter s spike_frequency / (s.af * nfAfter s))
      (nfAfter s)))

/-- Fiber.__force_length: exp(-|((length^beta - 1)/omega)|^rho). -/
def forceLength (ops : MathOps) (s : FiberState) : ℚ :=
  ops.exp (-(ops.powf |((ops.powf s.length s.beta - 1) / s.omega)| s.rho))

/-- Fiber.__force_velocity. -/
def forceVelocity (s : FiberState) : ℚ :=
  if s.velocity ≤ 0 then
    (s.max_velocity - s.velocity) /
      (s.max_velocity + s.velocity * (s.c_v0 + s.c_v1 * s.length))
  else
    (s.b_v - s.velocity * (s.a_v0 + s.a_v1 * s.length + s.a_v2 * s.length ^ 2)) /
      (s.b_v + s.velocity)

/-- Fiber.__parallel_elastic. -/
def parallelElastic (ops : MathOps) (s : FiberState) : ℚ :=
  s.c1 * s.k1 * ops.log (ops.exp ((s.length / s.max_length - s.l_r1) / s.k1) + 1) +
    s.eta * s.velocity

/-- Fiber.__thick_filament_compression. -/
def thickFilamentCompression (ops : MathOps) (s : FiberState) : ℚ :=
  s.c2 * (ops.exp (s.k2 * (s.length - s.l_r2)) - 1)

/-- Fiber.__passive_force, evaluated on the state holding the freshly written
activation frequency. -/
def passiveForce (ops : MathOps) (s : FiberState) : ℚ :=
  parallelElastic ops s + s.activation_frequency * thickFilamentCompression ops s

/-- Fiber.__active_force, evaluated on the state holding the freshly written
activation frequency. -/
def activeForce (ops : MathOps) (s : FiberState) : ℚ :=
  forceLength ops s * forceVelocity s * s.activation_frequency

/-- Fiber.update_force(spike_frequency): runs the pipeline recruitment →
tf → intermediate firing frequency → effective firing frequency → nf →
activation frequency, writing each result into the state, then returns the
passive plus active force.  The type-specific `__specific_function`
overrides are unreachable from here (Python name mangling), so yielding and
sag are untouched. -/
def updateForce (ops : MathOps) (s : FiberState) (spike_frequency : ℚ) :
    FiberState × ℚ :=
  let s1 := { s with f_env := recruitF s spike_frequency }
  let s2 := { s1 with tf := tfAfter s spike_frequency }
  let s3 := { s2 with f_int := fIntAfter s spike_frequency }
  let s4 := { s3 with f_eff := fEffAfter s spike_frequency }
  let s5 := { s4 with nf := nfAfter s }
  let s6 := { s5 with activation_frequency := actAfter ops s spike_frequency }
  (s6, passiveForce ops s6 + activeForce ops s6)

/-- Field relations established by both fiber constructors that the
divisor-positivity argument for tf needs: positive firing-frequency
coefficients, the f_min / f_max definitions, and a recruitment threshold
below 1.  The slow constructor gives u_th = 0.001; the fast constructor
gives u_th = 0.8 * f_pcsa, below 1 for every fractional PCSA below 1.25. -/
def FiberWF (s : FiberState) : Prop :=
  0 < s.t_f1 ∧ 0 < s.t_f2 ∧ 0 < s.t_f3 ∧ 0 ≤ s.t_f4 ∧
    s.f_min = 1/2 * s.f_05 ∧ s.f_max = 2 * s.f_05 ∧ s.u_th < 1

instance (s : FiberState) : Decidable (FiberWF s) := by
  unfold FiberWF; infer_instance

/-- Severity levels of the logging calls in the modelled code. -/
inductive LogLevel where
  | debug
  | info
  | warning
  | logError
deriving DecidableEq

/-- One emitted log line: severity and message text. -/
structure LogEntry where
  level : LogLevel
  msg : String
deriving DecidableEq

/-- A muscle as seen from Leg.update / Body.  The BrownMuscle internals live
behind `muscle.update(ctrl_sig=...)`; for the leg-level claims only the
muscle's name and the trace of control signals forwarded to it matter, so the
state is abstracted to that trace ("no control signal applied" = trace
unchanged). -/
structure MuscleState where
  name : String
  ctrlLog : List ℚ
deriving DecidableEq

/-- Forwarding one control signal to a muscle (muscles[i].update(ctrl_sig)). -/
def muscleUpdate (m : MuscleState) (ctrl : ℚ) : MuscleState :=
  { m with ctrlLog := m.ctrlLog ++ [ctrl] }

/-- Leg state (class Leg in src/src/body.py): name, orientation tag,
iteration counter, muscle list and the connection matrix, the latter a dict
from muscle name to a weight row, modelled as an association list. -/
structure LegState where
  name : String
  orien : String
  n_iter : ℕ
  muscles : List MuscleState
  connection_matrix : List (String × List ℚ)
deriving DecidableEq

/-- Python dict lookup on a string-keyed association list; `none` is a
KeyError at the call site. -/
def matrixLookup (cm : List (String × List ℚ)) (k : String) : Option (List ℚ) :=
  match cm with
  | [] => none
  | e :: es => if e.1 = k then some e.2 else matrixLookup es k

/-- The error-message expression in Leg.update's mismatch branch:
`"The brain outputs number (" + len(brain_output) + ") should match the
number in the connection matrix (" + len(...) + "). Please verify config!"`.
The very first `+` concatenates a str with an int (len is un-stringified), so
building the message raises TypeError before logger.error can run. -/
def mismatchMsg (nBrain nRow : ℕ) : Except PyErr PyVal := do
  let a ← pyAdd (.pyStr "The brain outputs number (") (.pyInt nBrain)
  let b ← pyAdd a (.pyStr ") should match the number in the connection matrix (")
  let c ← pyAdd b (.pyInt nRow)
  pyAdd c (.pyStr "). Please verify config!")

/-- Rendering of a Python value as log-message text (only the string case is
ever reached by the models). -/
def pyValText : PyVal → String
  | .pyStr s => s
  | .pyInt n => toString n
  | .pyBool b => toString b
  | .pyDict _ => "dict"

/-- The linear combination computed in Leg.update's else branch: iterating
over brain_output while indexing the row at the same position; lengths are
equal in that branch, so this is the dot product over the zipped lists. -/
def dotQ (row bo : List ℚ) : ℚ :=
  (row.zip bo).foldl (fun acc p => acc + p.1 * p.2) 0

/-- Text of the debug line logged after a successful muscle update. -/
def ctrlDebugMsg (name orien : String) (n : ℕ) (ctrl : ℚ) : String :=
  name ++ " " ++ orien ++ " iteration " ++ toString n ++ ": Control signal = " ++
    toString ctrl

/-- Loop body of Leg.update over the muscle list, threading the iteration
counter and collecting logs; any Python exception aborts the whole call.
For each muscle: look its row up in the connection matrix (KeyError if
absent); if the row length differs from the brain output length, evaluate
the error-message expression (whose str + int concatenation raises
TypeError; were it to succeed the message would be logged at error severity
and the loop would continue); otherwise forward the dot product to the
muscle, bump n_iter and log the debug line. -/
def legUpdateGo (cm : List (String × List ℚ)) (bo : List ℚ) (name orien : String) :
    List MuscleState → ℕ → Except PyErr (List MuscleState × ℕ × List LogEntry)
  | [], n => .ok ([], n, [])
  | m :: rest, n =>
    match matrixLookup cm m.name with
    | none => .error .keyError
    | some row =>
      if row.length ≠ bo.length then
        match mismatchMsg bo.length row.length with
        | .error e => .error e
        | .ok msg =>
          (legUpdateGo cm bo name orien rest n).map
            (fun out => (m :: out.1, out.2.1,
              ⟨.logError, pyValText msg⟩ :: out.2.2))
      else
        let ctrl := dotQ row bo
        (legUpdateGo cm bo name orien rest (n + 1)).map
          (fun out => (muscleUpdate m ctrl :: out.1, out.2.1,
            ⟨.debug, ctrlDebugMsg name orien (n + 1) ctrl⟩ :: out.2.2))

/-- Leg.update(brain_output): on success returns the updated leg and the logs
emitted, on a Python exception returns the exception. -/
def legUpdate (l : LegState) (brain_output : List ℚ) :
    Except PyErr (LegState × List LogEntry) :=
  (legUpdateGo l.connection_matrix brain_output l.name l.orien l.muscles l.n_iter).map
    (fun out => ({ l with muscles := out.1, n_iter := out.2.1 }, out.2.2))

/-- Decidable check that a muscle's connection-matrix row exists and has a
length different from the brain output's. -/
def rowMismatchB (cm : List (String × List ℚ)) (bo : List ℚ) (m : MuscleState) : Bool :=
  match matrixLookup cm m.name with
  | some row => row.length ≠ bo.length
  | none => false

/-- A world transform (mathutils 4x4 matrix): linear part by rows plus a
translation; applying it to a vector is row-dot plus translation. -/
structure Transform where
  r1 : Vec3
  r2 : Vec3
  r3 : Vec3
  t : Vec3
deriving DecidableEq

/-- Dot product of two vectors. -/
def dot3 (a b : Vec3) : ℚ := a.x * b.x + a.y * b.y + a.z * b.z

/-- worldTransform * vec(v). -/
def transformApply (tr : Transform) (v : Vec3) : Vec3 :=
  ⟨dot3 tr.r1 v + tr.t.x, dot3 tr.r2 v + tr.t.y, dot3 tr.r3 v + tr.t.z⟩

/-- A host scene object: only its world transform is read by the modelled
code. -/
structure BObj where
  worldTransform : Transform
deriving DecidableEq

/-- Host engine adapter as used by Body: get_object(name) returns the scene
object or None.  Modelled as a name-keyed association list of objects. -/
structure Simulator where
  objects : List (String × BObj)
deriving DecidableEq

/-- Name-keyed lookup over the scene's object list. -/
def objLookup (objs : List (String × BObj)) (k : String) : Option BObj :=
  match objs with
  | [] => none
  | e :: es => if e.1 = k then some e.2 else objLookup es k

/-- SimulatorUtils.get_object. -/
def getObject (sim : Simulator) (k : String) : Option BObj :=
  objLookup sim.objects k

/-- The configuration bundle Body.__init__ reads: trunk object name and
display name, per-leg muscle name lists, the shared connection matrix, the
body-level muscle list, and the two fitness reference constants. -/
structure BodyConfig where
  body_name : String
  body_obj : String
  front_leg_L_muscles : List String
  front_leg_R_muscles : List String
  back_leg_L_muscles : List String
  back_leg_R_muscles : List String
  body_muscles : List String
  connection_matrix : List (String × List ℚ)
  dist_ref : ℚ
  power_ref : ℚ
deriving DecidableEq

/-- Foreleg/Backleg construction: builds the muscle objects from the
configured name list (muscle internals abstracted as in `MuscleState`) and
stores the connection matrix. -/
def legInit (cfg : BodyConfig) (name orien : String) (muscleNames : List String) :
    LegState :=
  { name := name
    orien := orien
    n_iter := 0
    muscles := muscleNames.map (fun n => ⟨n, []⟩)
    connection_matrix := cfg.connection_matrix }

/-- Body state (class Body in src/src/body.py).  The Brain collaborator is
repository code outside src/ and is not needed by any claim settled here, so
it is not carried.  `active` models the attribute Body.__init__ assigns in
its missing-object branch; on the success path the attribute is never
created, modelled as `true`. -/
structure BodyState where
  name : String
  n_iter : ℕ
  body_obj : BObj
  origin : Vec3
  position : Vec3
  dist : ℚ
  powers : List ℚ
  av_power : ℚ
  loss_fct : ℚ
  dist_ref : ℚ
  power_ref : ℚ
  l_fo_leg : LegState
  r_fo_leg : LegState
  l_ba_leg : LegState
  r_ba_leg : LegState
  muscles : List MuscleState
  active : Bool
deriving DecidableEq

/-- Text of the error line logged when the trunk object is missing. -/
def bodyMissingMsg (name : String) : String :=
  "Body " ++ name ++ " doesn't exit. Check your configuration file!"

/-- Body.__init__: resolves the trunk object (on None: logs the error and
sets active = False, then immediately evaluates
`self.body_obj.worldTransform`, which on None raises AttributeError — the
construction aborts); on success captures origin and position, computes the
initial distance, and builds the four legs and the body muscles.  Returns
the logs emitted alongside the outcome. -/
def bodyInit (ops : MathOps) (sim : Simulator) (cfg : BodyConfig) :
    Except PyErr BodyState × List LogEntry :=
  match getObject sim cfg.body_obj with
  | none =>
    (.error .attributeError, [⟨.logError, bodyMissingMsg cfg.body_name⟩])
  | some obj =>
    let origin := transformApply obj.worldTransform ⟨0, 0, 0⟩
    (.ok
      { name := cfg.body_name
        n_iter := 0
        body_obj := obj
        origin := origin
        position := origin
        dist := ops.sqrt (normSq (vsub origin origin))
        powers := []
        av_power := 0
        loss_fct := 0
        dist_ref := cfg.dist_ref
        power_ref := cfg.power_ref
        l_fo_leg := legInit cfg "Foreleg" "L" cfg.front_leg_L_muscles
        r_fo_leg := legInit cfg "Foreleg" "R" cfg.front_leg_R_muscles
        l_ba_leg := legInit cfg "Backleg" "L" cfg.back_leg_L_muscles
        r_ba_leg := legInit cfg "Backleg" "R" cfg.back_leg_R_muscles
        muscles := cfg.body_muscles.map (fun n => ⟨n, []⟩)
        active := true }, [])

/-- Arithmetic mean of a list, written independently of the body code. -/
def meanQ (xs : List ℚ) : ℚ := xs.sum / (xs.length : ℚ)

/-- Sum as Python's sum() over the power history. -/
def sumQ (xs : List ℚ) : ℚ := xs.sum

/-- Body.compute_traveled_dist: re-reads the trunk's current world position
and the straight-line distance from the captured origin. -/
def computeTraveledDist (ops : MathOps) (s : BodyState) : BodyState :=
  let position := transformApply s.body_obj.worldTransform ⟨0, 0, 0⟩
  { s with
    position := position
    dist := ops.sqrt (normSq (vsub position s.origin)) }

/-- Body.get_loss_fct: recompute the traveled distance, average the full
power history (sum / float(len)), return
tanh(dist / dist_ref) * tanh(power_ref / av_power).  Python raises
ZeroDivisionError on an empty history or a zero average; the claims keep
those out by hypothesis. -/
def getLossFct (ops : MathOps) (s : BodyState) : BodyState × ℚ :=
  let s1 := computeTraveledDist ops s
  let av := sumQ s1.powers / (s1.powers.length : ℚ)
  let s2 := { s1 with av_power := av }
  let loss := ops.tanh (s2.dist / s2.dist_ref) * ops.tanh (s2.power_ref / s2.av_power)
  ({ s2 with loss_fct := loss }, loss)

/-- Parameter dictionary read by BrownMuscle.__init__; each key is optional
(`"key" in self.params` checks). -/
structure BrownParams where
  hOpt : Option ℚ
  percent_slow_fiber : Option ℚ
  pcsa : Option ℚ
  l_0 : Option ℚ
  l_se : Option ℚ
  max_length : Option ℚ
  angle : Option ℚ
deriving DecidableEq

/-- Modelled from the spec: the fiber variant the muscles package hands to
BrownMuscle takes eight construction arguments (the five base parameters plus
tendon length, maximum length and optimal length); that class is repository
code absent from src/, so the construction is modelled as a record of the
arguments BrownMuscle passes (src/src/muscles/brown.py lines 55-59). -/
structure FiberArgs where
  h : ℚ
  pcsa : ℚ
  length : ℚ
  velocity : ℚ
  f_05 : ℚ
  l_se : ℚ
  l_max : ℚ
  l_0 : ℚ
deriving DecidableEq

/-- BrownMuscle state: every attribute BrownMuscle.__init__ assigns.  The
Muscle base class (repository code absent from src/) supplies the two
attachment points; per the spec they are the muscle's anchor coordinates, so
they are inputs of the constructor model. -/
structure BrownState where
  h : ℚ
  percent_slow_fiber : ℚ
  f_05 : ℚ
  pcsa : ℚ
  l_ce : ℚ
  l_0 : ℚ
  l_se : ℚ
  l_max : ℚ
  angle : ℚ
  v_ce : ℚ
  slowFiber : FiberArgs
  fastFiber : FiberArgs
  slowPercent : ℚ
  fastPercent : ℚ
  last_signal : ℚ
  start_period : ℚ
  current_time : ℚ
  current_force : ℚ
deriving DecidableEq

/-- BrownMuscle.__init__ (src/src/muscles/brown.py lines 36-63): defaults
h = 0.01, percent_slow_fiber = 3.5, f_05 = 0.36, pcsa = 0; l_ce is the
Euclidean distance between the two attachment points; l_0 defaults to l_ce;
l_se defaults to 0; l_max defaults to 1.5 * l_ce (note: l_ce, not l_0);
angle defaults to 0; v_ce = 0; then the two fibers are constructed. -/
def brownInit (ops : MathOps) (params : BrownParams) (app1 app2 : Vec3) :
    BrownState :=
  let h := match params.hOpt with | none => 1/100 | some v => v
  let percent_slow := match params.percent_slow_fiber with | some v => v | none => 7/2
  let f_05 : ℚ := 36/100
  let pcsa := match params.pcsa with | none => 0 | some v => v
  let l_ce := ops.sqrt (normSq (vsub app1 app2))
  let l_0 := match params.l_0 with | none => l_ce | some v => v
  let l_se := match params.l_se with | none => 0 | some v => v
  let l_max := match params.max_length with | none => 3/2 * l_ce | some v => v
  let angle := match params.angle with | none => 0 | some v => v
  { h := h
    percent_slow_fiber := percent_slow
    f_05 := f_05
    pcsa := pcsa
    l_ce := l_ce
    l_0 := l_0
    l_se := l_se
    l_max := l_max
    angle := angle
    v_ce := 0
    slowFiber := ⟨h, pcsa, l_ce, 0, f_05, l_se, l_max, l_0⟩
    fastFiber := ⟨h, pcsa, l_ce, 0, f_05, l_se, l_max, l_0⟩
    slowPercent := percent_slow
    fastPercent := 100 - percent_slow
    last_signal := 0
    start_period := 0
    current_time := 0
    current_force := 0 }

/-- Keyword-argument bundle received by Optimization.update; only the "res"
and "interruption" keys are inspected by the code. -/
structure UpdateKwargs where
  res : Option PyVal
  interruption : Option PyVal
deriving DecidableEq

/-- Optimization state: the fields Optimization.update touches plus the
interruption-adjacent bookkeeping. -/
structure OptState where
  interruption : Bool
  res_list : List PyVal
  best_solutions_list : List PyVal
  population_size : ℤ
  max_iteration : ℤ
deriving DecidableEq

/-- Python's dict .copy() for the defensive copy of a dict result; with value
semantics a copy is the value itself. -/
def pyCopy (v : PyVal) : PyVal := v

/-- Optimization.update (src/src/optimization/optimization.py lines 76-89):
`if "res" in kwargs: append (copy if dict); elif "interruption" in kwargs:
if it is a bool and true, set the flag`.  The elif makes the two branches
mutually exclusive: a bundle carrying both keys only appends the result. -/
def optUpdate (s : OptState) (kw : UpdateKwargs) : OptState :=
  match kw.res with
  | some v => { s with res_list := s.res_list ++ [pyCopy v] }
  | none =>
    match kw.interruption with
    | some (.pyBool true) => { s with interruption := true }
    | _ => s

/-- Polled state of an rpyc asynchronous call handle: the expired / error
flags check_sim reads. -/
structure Callback where
  expired : Bool
  error : Bool
deriving DecidableEq

/-- Modelled from the spec: SimulationRequest (connection.py, absent from
src/) is one unit of work — a parameter payload, an index into the response
list, and once dispatched an asynchronous-call handle; its copy used at
requeue time is a value copy. -/
structure SimulationRequest where
  rqt : String
  index : ℕ
  callback : Option Callback
deriving DecidableEq

/-- Modelled from the spec: ServerInfo (connection.py, absent from src/) is
the address and port pair plus status (available/unavailable) and the
in-flight job count. -/
structure ServerInfo where
  address : String
  port : ℕ
  status : Bool
  nb_threads : ℤ
deriving DecidableEq

/-- Modelled from the spec: Connexion (connection.py, absent from src/) is
the triple of server id, live connection, and servicing thread; the model
keeps the server id, whether close() was called, and whether the servicing
thread is still flagged active.  Note check_sim's `del connection` deletes
only the loop variable, so the entry is not removed from the list. -/
structure Connexion where
  server_id : ℕ
  closed : Bool
  thread_active : Bool
deriving DecidableEq

/-- Client state: the five shared collections check_sim touches (the request
queue, its counter, cloud state keyed by server hash, the per-server
in-flight tracking `results`, and the connection list). -/
structure ClientState where
  rqt : List SimulationRequest
  rqt_n : ℕ
  cloud_state : List (ℕ × ServerInfo)
  results : List (ℕ × List SimulationRequest)
  conn_list : List Connexion
deriving DecidableEq

/-- Association-list lookup for the hash-keyed dicts of the client. -/
def lookupAssoc {α : Type} (l : List (ℕ × α)) (k : ℕ) : Option α :=
  match l with
  | [] => none
  | e :: es => if e.1 = k then some e.2 else lookupAssoc es k

/-- Whether one in-flight simulation's callback reports expiry or error.  An
in-flight entry always carries a handle (request_server attaches it before
inserting); a missing handle would be an AttributeError in Python and is
excluded by hypothesis where it matters. -/
def simBroken (sim : SimulationRequest) : Bool :=
  match sim.callback with
  | some c => c.expired || c.error
  | none => false

/-- Whether any of a server's in-flight simulations is broken (the inner
for-loop of check_sim with its break). -/
def entryBroken (sims : List SimulationRequest) : Bool :=
  sims.any simBroken

/-- The requeued form of an in-flight simulation: callback handle cleared
(simulation.callback = None, then simulation.copy()). -/
def clearCallback (sim : SimulationRequest) : SimulationRequest :=
  { sim with callback := none }

/-- Marking a server unavailable in cloud state. -/
def markDown (h : ℕ) (l : List (ℕ × ServerInfo)) : List (ℕ × ServerInfo) :=
  l.map (fun e => if e.1 = h then (e.1, { e.2 with status := false }) else e)

/-- Closing the first listed connection of a given server (the for/break loop
in check_sim; `del connection` only unbinds the loop variable, so the closed
connection stays in the list). -/
def closeFirst (h : ℕ) : List Connexion → List Connexion
  | [] => []
  | c :: cs =>
    if c.server_id = h then { c with closed := true } :: cs else c :: closeFirst h cs

/-- The body of check_sim for one (server, in-flight list) pair: if none of
the simulations is broken, nothing happens; otherwise every in-flight
simulation is requeued with its callback cleared (and the request counter
bumped), the server — if still tracked in cloud state — is marked
unavailable and its first connection closed, and the server's entry is
removed from the in-flight tracking dict. -/
def processServer (h : ℕ) (sims : List SimulationRequest) (s : ClientState) :
    ClientState :=
  if entryBroken sims then
    { s with
      rqt := s.rqt ++ sims.map clearCallback
      rqt_n := s.rqt_n + sims.length
      cloud_state :=
        if (lookupAssoc s.cloud_state h).isSome then markDown h s.cloud_state
        else s.cloud_state
      conn_list :=
        if (lookupAssoc s.cloud_state h).isSome then closeFirst h s.conn_list
        else s.conn_list
      results := s.results.filter (fun e => !(e.1 == h)) }
  else s

/-- Iteration of check_sim over the snapshot of results.items() (Python 2
list snapshot, so deleting entries from the live dict while iterating is
safe), threading the state. -/
def checkSimGo (snapshot : List (ℕ × List SimulationRequest)) (s : ClientState) :
    ClientState :=
  match snapshot with
  | [] => s
  | (h, sims) :: rest => checkSimGo rest (processServer h sims s)

/-- Client.check_sim (src/src/simulations/clients/client.py lines 411-456). -/
def checkSim (s : ClientState) : ClientState :=
  checkSimGo s.results s

/-- Concrete leg used to evaluate the Leg.update model: one muscle whose
connection-matrix row has 2 entries against a brain output of length 4. -/
def legW : LegState :=
  { name := "Foreleg"
    orien := "L"
    n_iter := 0
    muscles := [⟨"biceps", []⟩]
    connection_matrix := [("biceps", [1, 2])] }

/-- Concrete body used to evaluate the get_loss_fct model: trunk translated
to (2,0,0) from origin (0,0,0), constant power history [5, 5], dist_ref 1,
power_ref 10. -/
def bodyW : BodyState :=
  { name := "mouse"
    n_iter := 2
    body_obj := ⟨⟨⟨1, 0, 0⟩, ⟨0, 1, 0⟩, ⟨0, 0, 1⟩, ⟨2, 0, 0⟩⟩⟩
    origin := ⟨0, 0, 0⟩
    position := ⟨0, 0, 0⟩
    dist := 0
    powers := [5, 5]
    av_power := 0
    loss_fct := 0
    dist_ref := 1
    power_ref := 10
    l_fo_leg := legW
    r_fo_leg := legW
    l_ba_leg := legW
    r_ba_leg := legW
    muscles := []
    active := true }

/-- Concrete client state used to evaluate the check_sim model: one tracked
server (hash 1) with a single expired in-flight simulation, an empty request
queue, and one live connection. -/
def clientW : ClientState :=
  { rqt := []
    rqt_n := 0
    cloud_state := [(1, ⟨"192.168.0.2", 18861, true, 1⟩)]
    results := [(1, [⟨"opt", 0, some ⟨true, false⟩⟩])]
    conn_list := [⟨1, false, true⟩] }

lemma mismatchMsg_typeError (a b : ℕ) : mismatchMsg a b = .error .typeError := rfl

lemma legUpdateGo_mismatch (cm : List (String × List ℚ)) (bo : List ℚ)
    (nm orien : String) :
    ∀ ms : List MuscleState, (∀ m ∈ ms, (matrixLookup cm m.name).isSome) →
      (∃ m ∈ ms, rowMismatchB cm bo m = true) → ∀ n : ℕ,
      legUpdateGo cm bo nm orien ms n = .error .typeError := by
  intro ms
  induction ms with
  | nil => intro _ hex; simp at hex
  | cons m rest ih =>
    intro hall hex n
    obtain ⟨row, hrow⟩ :=
      Option.isSome_iff_exists.mp (hall m (List.mem_cons_self m rest))
    by_cases hne : row.length ≠ bo.length
    · simp [legUpdateGo, hrow, hne, mismatchMsg_typeError]
    · push_neg at hne
      have hrest : ∃ m2 ∈ rest, rowMismatchB cm bo m2 = true := by
        obtain ⟨m2, hm2, hmm2⟩ := hex
        rcases List.mem_cons.mp hm2 with heq | hmem
        · subst heq
          rw [rowMismatchB, hrow] at hmm2
          simp [hne] at hmm2
        · exact ⟨m2, hmem, hmm2⟩
      have hrec := ih (fun m2 hm2 => hall m2 (List.mem_cons_of_mem _ hm2)) hrest (n + 1)
      simp [legUpdateGo, hrow, hne, hrec, Except.map]

lemma checkSimGo_append (L1 L2 : List (ℕ × List SimulationRequest))
    (s : ClientState) :
    checkSimGo (L1 ++ L2) s = checkSimGo L2 (checkSimGo L1 s) := by
  induction L1 generalizing s with
  | nil => rfl
  | cons e rest ih => cases e; simp [checkSimGo, ih]

lemma checkSimGo_clean (L : List (ℕ × List SimulationRequest)) (s : ClientState)
    (hc : ∀ e ∈ L, entryBroken e.2 = false) : checkSimGo L s = s := by
  induction L generalizing s with
  | nil => rfl
  | cons e rest ih =>
    cases e with
    | mk h sims =>
      have he : entryBroken sims = false := hc (h, sims) (List.mem_cons_self _ _)
      rw [checkSimGo, processServer]
      rw [if_neg (by simp [he])]
      exact ih s (fun e2 he2 => hc e2 (List.mem_cons_of_mem _ he2))

lemma lookupAssoc_filter_self {α : Type} (l : List (ℕ × α)) (h : ℕ) :
    lookupAssoc (l.filter (fun e => !(e.1 == h))) h = none := by
  induction l with
  | nil => rfl
  | cons e rest ih =>
    rw [List.filter_cons]
    by_cases heq : e.1 = h
    · rw [if_neg (by simp [heq])]
      exact ih
    · rw [if_pos (by simp [heq]), lookupAssoc, if_neg heq]
      exact ih

lemma lookupAssoc_markDown (l : List (ℕ × ServerInfo)) (h : ℕ) (info : ServerInfo)
    (hl : lookupAssoc l h = some info) :
    lookupAssoc (markDown h l) h = some { info with status := false } := by
  induction l with
  | nil => simp [lookupAssoc] at hl
  | cons e rest ih =>
    by_cases heq : e.1 = h
    · rw [lookupAssoc, if_pos heq] at hl
      injection hl with hl
      subst hl
      simp [markDown, lookupAssoc, heq]
    · rw [lookupAssoc, if_neg heq] at hl
      simpa [markDown, lookupAssoc, heq] using ih hl

/-- C1: the claim says Leg.update on a connection-matrix row whose length
mismatches the brain output logs an error, applies no control signal to that
muscle and never raises.  In the code the error message is built by
concatenating strings with the un-stringified ints len(brain_output) and
len(row), so the logging line itself raises TypeError: the call raises, and
no error line is emitted.  Assuming every muscle's row exists (no KeyError
first) and some muscle's row length mismatches, Leg.update raises
TypeError. -/
theorem leg_update_mismatch_raises (l : LegState) (bo : List ℚ)
    (hall : ∀ m ∈ l.muscles, (matrixLookup l.connection_matrix m.name).isSome)
    (hmm : ∃ m ∈ l.muscles, rowMismatchB l.connection_matrix bo m = true) :
    legUpdate l bo = .error .typeError := by
  unfold legUpdate
  rw [legUpdateGo_mismatch l.connection_matrix bo l.name l.orien l.muscles hall hmm
    l.n_iter]
  rfl

theorem leg_update_mismatch_raises_witness :
    (∀ m ∈ legW.muscles, (matrixLookup legW.connection_matrix m.name).isSome) ∧
      (∃ m ∈ legW.muscles, rowMismatchB legW.connection_matrix [1, 1, 1, 1] m = true) ∧
      legUpdate legW [1, 1, 1, 1] = .error .typeError :=
  ⟨by decide, by decide,
    leg_update_mismatch_raises legW [1, 1, 1, 1] (by decide) (by decide)⟩

/-- C4: for a body with a non-empty power history (and the division-defined
cases: non-zero power sum and dist_ref), get_loss_fct returns exactly
tanh(dist / dist_ref) * tanh(power_ref / av_power), where dist is the
recomputed Euclidean distance between the trunk's current position and the
origin captured at construction, and av_power is the arithmetic mean of the
full power history. -/
theorem get_loss_fct_formula (ops : MathOps) (s : BodyState)
    (hne : s.powers ≠ []) (hsum : sumQ s.powers ≠ 0) (href : s.dist_ref ≠ 0) :
    (getLossFct ops s).2 =
      ops.tanh (ops.sqrt (normSq (vsub
          (transformApply s.body_obj.worldTransform ⟨0, 0, 0⟩) s.origin)) /
        s.dist_ref) *
        ops.tanh (s.power_ref / meanQ s.powers) := by
  simp [getLossFct, computeTraveledDist, meanQ, sumQ]

theorem get_loss_fct_formula_witness :
    bodyW.powers ≠ [] ∧ sumQ bodyW.powers ≠ 0 ∧ bodyW.dist_ref ≠ 0 ∧
      (getLossFct exactOps bodyW).2 =
        exactOps.tanh (exactOps.sqrt (normSq (vsub
            (transformApply bodyW.body_obj.worldTransform ⟨0, 0, 0⟩) bodyW.origin)) /
          bodyW.dist_ref) *
          exactOps.tanh (bodyW.power_ref / meanQ bodyW.powers) :=
  ⟨by simp [bodyW], by norm_num [bodyW, sumQ], by norm_num [bodyW],
    get_loss_fct_formula exactOps bodyW (by simp [bodyW])
      (by norm_num [bodyW, sumQ]) (by norm_num [bodyW])⟩

/-- C5: for a tracked server with a broken (expired or errored) in-flight
call, check_sim appends that server's in-flight simulations, callbacks
cleared, onto the request queue — growing the queue by exactly their number
when that server is the only broken one — marks the server unavailable in
cloud state when it is still present there, and removes the server's entry
from the in-flight tracking mapping. -/
theorem check_sim_broken_server (s : ClientState) (h : ℕ)
    (sims : List SimulationRequest)
    (hnd : (s.results.map Prod.fst).Nodup)
    (hmem : (h, sims) ∈ s.results)
    (hcb : ∀ e ∈ s.results, ∀ sim ∈ e.2, (sim.callback).isSome)
    (hbr : entryBroken sims = true)
    (honly : ∀ e ∈ s.results, e.1 ≠ h → entryBroken e.2 = false) :
    (checkSim s).rqt = s.rqt ++ sims.map clearCallback ∧
      (checkSim s).rqt.length = s.rqt.length + sims.length ∧
      lookupAssoc (checkSim s).results h = none ∧
      ∀ info, lookupAssoc s.cloud_state h = some info →
        lookupAssoc (checkSim s).cloud_state h =
          some { info with status := false } := by
  obtain ⟨L1, L2, hsplit⟩ := List.append_of_mem hmem
  have hnd' : (L1.map Prod.fst ++ ((h, sims) :: L2).map Prod.fst).Nodup := by
    have h0 := hnd
    rw [hsplit, List.map_append] at h0
    exact h0
  have hdisj := (List.nodup_append.mp hnd').2.2
  have hcons := (List.nodup_append.mp hnd').2.1
  have hL1 : ∀ e ∈ L1, entryBroken e.2 = false := by
    intro e he
    refine honly e (hsplit ▸ List.mem_append_left _ he) (fun heq => ?_)
    exact hdisj (List.mem_map_of_mem Prod.fst he) (by simp [heq])
  have hL2 : ∀ e ∈ L2, entryBroken e.2 = false := by
    intro e he
    refine honly e (hsplit ▸ List.mem_append_right _ (List.mem_cons_of_mem _ he))
      (fun heq => ?_)
    have hnc := hcons
    rw [List.map_cons, List.nodup_cons] at hnc
    have hmem2 : e.1 ∈ L2.map Prod.fst := List.mem_map_of_mem Prod.fst he
    rw [heq] at hmem2
    exact hnc.1 hmem2
  have hstep : checkSim s = processServer h sims s := by
    rw [checkSim, hsplit, checkSimGo_append, checkSimGo_clean L1 s hL1, checkSimGo]
    exact checkSimGo_clean L2 _ hL2
  rw [hstep, processServer, if_pos hbr]
  refine ⟨rfl, by simp, lookupAssoc_filter_self _ _, ?_⟩
  intro info hinfo
  simp only
  rw [if_pos (by simp [hinfo])]
  exact lookupAssoc_markDown s.cloud_state h info hinfo

theorem check_sim_broken_server_witness :
    (clientW.results.map Prod.fst).Nodup ∧
      ((1 : ℕ), [(⟨"opt", 0, some ⟨true, false⟩⟩ : SimulationRequest)]) ∈
        clientW.results ∧
      (∀ e ∈ clientW.results, ∀ sim ∈ e.2, (sim.callback).isSome) ∧
      entryBroken [(⟨"opt", 0, some ⟨true, false⟩⟩ : SimulationRequest)] = true ∧
      (checkSim clientW).rqt = clientW.rqt ++
        [(⟨"opt", 0, some ⟨true, false⟩⟩ : SimulationRequest)].map clearCallback ∧
      lookupAssoc (checkSim clientW).results 1 = none ∧
      lookupAssoc (checkSim clientW).cloud_state 1 =
        some ⟨"192.168.0.2", 18861, false, 1⟩ :=
  ⟨by decide, by decide, by decide, by decide,
    (check_sim_broken_server clientW 1 [⟨"opt", 0, some ⟨true, false⟩⟩]
      (by decide) (by decide) (by decide) (by decide) (by decide)).1,
    (check_sim_broken_server clientW 1 [⟨"opt", 0, some ⟨true, false⟩⟩]
      (by decide) (by decide) (by decide) (by decide) (by decide)).2.2.1,
    (check_sim_broken_server clientW 1 [⟨"opt", 0, some ⟨true, false⟩⟩]
      (by decide) (by decide) (by decide) (by decide) (by decide)).2.2.2
      ⟨"192.168.0.2", 18861, true, 1⟩ (by decide)⟩

/-- C10: update_force's firing-frequency pipeline never divides by zero: on
a call where tf still holds its initial value 0, the derivative argument fed
to the time-constant computation is 0 instead of a division by tf; and for a
well-formed fiber (constructed coefficient relations, threshold below 1)
with positive length, nonnegative spike frequency, positive f_05 and
nonnegative stored activation frequency, the freshly computed tf is strictly
positive — and it is this tf that divides the intermediate and effective
firing-frequency Euler steps inside update_force. -/
theorem update_force_tf_positive (ops : MathOps) (s : FiberState) (spike : ℚ)
    (hwf : FiberWF s) (hlen : 0 < s.length) (hspike : 0 ≤ spike)
    (hf : 0 < s.f_05) (hact : 0 ≤ s.activation_frequency) :
    (s.tf = 0 → dFEffArg s = 0) ∧ 0 < tfAfter s spike ∧
      (updateForce ops s spike).1.f_int =
        s.f_int + s.h * ((recruitF s spike - s.f_int) / tfAfter s spike) ∧
      (updateForce ops s spike).1.f_eff =
        s.f_eff + s.h * ((fIntAfter s spike - s.f_eff) / tfAfter s spike) := by
  obtain ⟨h1, h2, h3, h4, hmin, hmax, hth⟩ := hwf
  refine ⟨?_, ?_, rfl, rfl⟩
  · intro h0
    simp [dFEffArg, h0]
  · have henv : 0 < recruitF s spike := by
      have hfmin : 0 < s.f_min := by rw [hmin]; linarith
      rw [recruitF]
      split
      · have hprod : (0:ℚ) ≤ (s.f_max - s.f_min) / (1 - s.u_th) * spike := by
          apply mul_nonneg _ hspike
          apply div_nonneg _ (by linarith)
          rw [hmin, hmax]; linarith
        linarith
      · exact hfmin
    rw [tfAfter]
    split
    · have ha := mul_pos h1 (pow_pos hlen 2)
      have hb := mul_pos h2 henv
      linarith
    · apply div_pos _ hlen
      have := mul_nonneg h4 hact
      linarith

theorem update_force_tf_positive_witness :
    FiberWF (mkSlowTwitchFiber (1/100) 0 1 0 1) ∧
      0 < (mkSlowTwitchFiber (1/100) 0 1 0 1).length ∧
      (0:ℚ) ≤ 1 ∧ 0 < (mkSlowTwitchFiber (1/100) 0 1 0 1).f_05 ∧
      0 ≤ (mkSlowTwitchFiber (1/100) 0 1 0 1).activation_frequency ∧
      dFEffArg (mkSlowTwitchFiber (1/100) 0 1 0 1) = 0 ∧
      0 < tfAfter (mkSlowTwitchFiber (1/100) 0 1 0 1) 1 :=
  ⟨by norm_num [FiberWF, mkSlowTwitchFiber, mkFiber],
    by norm_num [mkSlowTwitchFiber, mkFiber], by norm_num,
    by norm_num [mkSlowTwitchFiber, mkFiber],
    by norm_num [mkSlowTwitchFiber, mkFiber],
    (update_force_tf_positive exactOps (mkSlowTwitchFiber (1/100) 0 1 0 1) 1
      (by norm_num [FiberWF, mkSlowTwitchFiber, mkFiber])
      (by norm_num [mkSlowTwitchFiber, mkFiber]) (by norm_num)
      (by norm_num [mkSlowTwitchFiber, mkFiber])
      (by norm_num [mkSlowTwitchFiber, mkFiber])).1 rfl,
    (update_force_tf_positive exactOps (mkSlowTwitchFiber (1/100) 0 1 0 1) 1
      (by norm_num [FiberWF, mkSlowTwitchFiber, mkFiber])
      (by norm_num [mkSlowTwitchFiber, mkFiber]) (by norm_num)
      (by norm_num [mkSlowTwitchFiber, mkFiber])
      (by norm_num [mkSlowTwitchFiber, mkFiber])).2.1⟩

/-- C2: the claim says update_force computes the activation frequency with the
fiber's type-specific specific function (yielding for slow, sag for fast),
updated by one Euler step during the call.  In the code, Python name mangling
makes `self.__specific_function()` inside Fiber.__activation_frequency
resolve to the base Fiber method returning the constant 1, so the overrides
are never invoked: update_force leaves yielding and sag untouched and uses
the factor 1 in the activation-frequency formula. -/
theorem update_force_ignores_specific_function (ops : MathOps) (s : FiberState)
    (spike : ℚ) :
    ((updateForce ops s spike).1).yielding = s.yielding ∧
      ((updateForce ops s spike).1).sag = s.sag ∧
      (fiberSpecificFunction s).2 = 1 ∧
      ((updateForce ops s spike).1).activation_frequency =
        1 - ops.exp (-(ops.powf ((fiberSpecificFunction s).2 * fEffAfter s spike /
          (s.af * nfAfter s)) (nfAfter s))) := by
  refine ⟨rfl, rfl, rfl, ?_⟩
  simp [updateForce, actAfter]

/-- C3: with the trunk object name absent from the host world, Body.__init__
logs the error and sets active = False, but then immediately dereferences
`self.body_obj.worldTransform` on None, so the construction raises
AttributeError instead of completing. -/
theorem body_init_missing_trunk_raises (ops : MathOps) (sim : Simulator)
    (cfg : BodyConfig) (hmiss : getObject sim cfg.body_obj = none) :
    bodyInit ops sim cfg =
      (.error .attributeError, [⟨.logError, bodyMissingMsg cfg.body_name⟩]) := by
  unfold bodyInit
  rw [hmiss]

theorem body_init_missing_trunk_raises_witness :
    getObject ⟨[]⟩ "obj_body" = none ∧
      bodyInit exactOps ⟨[]⟩
          ⟨"mouse", "obj_body", [], [], [], [], [], [], 1, 10⟩ =
        (.error .attributeError, [⟨.logError, bodyMissingMsg "mouse"⟩]) :=
  ⟨rfl, body_init_missing_trunk_raises exactOps ⟨[]⟩
    ⟨"mouse", "obj_body", [], [], [], [], [], [], 1, 10⟩ rfl⟩

/-- C6 counterexample: at the freshly constructed fast-twitch fiber
(sag = 0, f_eff = 0, h = 0.01, ts = 43), the new sag is not the previous sag
plus h times (target minus previous sag) over ts: the code writes
1.76 + 0.01 * 1.76 / 43 while the claim's Euler step gives 0.01 * 1.76 / 43. -/
theorem fast_sag_counterexample :
    ((fastSpecificFunction (mkFastTwitchFiber (1/100) 0 1 0 (36/100))).1).sag ≠
      (mkFastTwitchFiber (1/100) 0 1 0 (36/100)).sag +
        (mkFastTwitchFiber (1/100) 0 1 0 (36/100)).h *
          ((sagTarget (mkFastTwitchFiber (1/100) 0 1 0 (36/100)) -
            (mkFastTwitchFiber (1/100) 0 1 0 (36/100)).sag) /
              (mkFastTwitchFiber (1/100) 0 1 0 (36/100)).ts) := by
  norm_num [fastSpecificFunction, mkFastTwitchFiber, mkFiber, sagTarget]

/-- C6 (amended): each evaluation of FastTwitchFiber.__specific_function
writes sag := target + h * (target - previous sag) / ts, where the target is
as1 = 1.76 when f_eff < 0.1 and as2 = 0.96 otherwise — the new sag is offset
from the target by the step, not Euler-integrated from the previous sag; it
exceeds the claim's Euler value by exactly (target - previous sag). -/
theorem fast_sag_update_formula (s : FiberState) :
    ((fastSpecificFunction s).1).sag =
        sagTarget s + (sagTarget s - s.sag) / s.ts * s.h ∧
      ((fastSpecificFunction s).1).sag -
          (s.sag + s.h * ((sagTarget s - s.sag) / s.ts)) = sagTarget s - s.sag := by
  constructor
  · simp [fastSpecificFunction]
  · simp only [fastSpecificFunction]
    ring

/-- C7 counterexample: a BrownMuscle constructed without "max_length" but
with an explicit "l_0" of 5, whose attachment points are at distance 2, gets
l_max = 1.5 * 2 = 3, not 1.5 * l_0 = 7.5. -/
theorem brown_l_max_counterexample :
    (brownInit exactOps ⟨none, none, none, some 5, none, none, none⟩
        ⟨0, 0, 0⟩ ⟨2, 0, 0⟩).l_max ≠
      3/2 * (brownInit exactOps ⟨none, none, none, some 5, none, none, none⟩
        ⟨0, 0, 0⟩ ⟨2, 0, 0⟩).l_0 := by
  norm_num [brownInit, exactOps, normSq, vsub, Rat.sqrt]

/-- C7 (amended): a BrownMuscle constructed without "max_length" has
l_max = 1.5 * l_ce, the measured initial distance between the two attachment
points; when "l_0" is also absent, l_0 equals that distance and hence
l_max = 1.5 * l_0. -/
theorem brown_l_max_default (ops : MathOps) (params : BrownParams)
    (app1 app2 : Vec3) (hmax : params.max_length = none) :
    (brownInit ops params app1 app2).l_max =
        3/2 * (brownInit ops params app1 app2).l_ce ∧
      (params.l_0 = none →
        (brownInit ops params app1 app2).l_0 = (brownInit ops params app1 app2).l_ce ∧
          (brownInit ops params app1 app2).l_max =
            3/2 * (brownInit ops params app1 app2).l_0) := by
  refine ⟨?_, fun h0 => ⟨?_, ?_⟩⟩
  · simp [brownInit, hmax]
  · simp [brownInit, h0]
  · simp [brownInit, hmax, h0]

theorem brown_l_max_default_witness :
    (⟨none, none, none, none, none, none, none⟩ : BrownParams).max_length = none ∧
      (brownInit exactOps ⟨none, none, none, none, none, none, none⟩
          ⟨0, 0, 0⟩ ⟨2, 0, 0⟩).l_0 =
        (brownInit exactOps ⟨none, none, none, none, none, none, none⟩
          ⟨0, 0, 0⟩ ⟨2, 0, 0⟩).l_ce ∧
      (brownInit exactOps ⟨none, none, none, none, none, none, none⟩
          ⟨0, 0, 0⟩ ⟨2, 0, 0⟩).l_max =
        3/2 * (brownInit exactOps ⟨none, none, none, none, none, none, none⟩
          ⟨0, 0, 0⟩ ⟨2, 0, 0⟩).l_0 :=
  ⟨rfl,
    ((brown_l_max_default exactOps ⟨none, none, none, none, none, none, none⟩
      ⟨0, 0, 0⟩ ⟨2, 0, 0⟩ rfl).2 rfl).1,
    ((brown_l_max_default exactOps ⟨none, none, none, none, none, none, none⟩
      ⟨0, 0, 0⟩ ⟨2, 0, 0⟩ rfl).2 rfl).2⟩

/-- C8 counterexample: a bundle carrying both a "res" key and a boolean-true
"interruption" key leaves the interruption flag unset, because the code's
elif never inspects "interruption" when "res" is present. -/
theorem opt_update_counterexample :
    (optUpdate ⟨false, [], [], 0, 0⟩
        ⟨some (.pyInt 1), some (.pyBool true)⟩).interruption = false := by
  decide

/-- C8 (amended): Optimization.update sets the interruption flag for a
boolean-true "interruption" key only when the bundle carries no "res" key;
when both keys are present the elif skips the interruption branch and only
the result is appended. -/
theorem opt_update_interruption_no_res (s : OptState) (kw : UpdateKwargs)
    (hres : kw.res = none) (hint : kw.interruption = some (.pyBool true)) :
    (optUpdate s kw).interruption = true := by
  simp [optUpdate, hres, hint]

theorem opt_update_interruption_no_res_witness :
    (⟨none, some (.pyBool true)⟩ : UpdateKwargs).res = none ∧
      (optUpdate ⟨false, [], [], 0, 0⟩ ⟨none, some (.pyBool true)⟩).interruption =
        true :=
  ⟨rfl, opt_update_interruption_no_res ⟨false, [], [], 0, 0⟩
    ⟨none, some (.pyBool true)⟩ rfl rfl⟩

/-- C9: recruitment is monotonic.  For a fiber whose f_min and f_max carry
their constructed values 0.5 * f_05 and 2 * f_05, with f_05 > 0 and
u_th < 1: any two spike frequencies above u_th map to strictly increasing
f_env values, and any spike frequency at or below u_th maps to
f_min = 0.5 * f_05. -/
theorem recruitment_monotone (s : FiberState)
    (hmin : s.f_min = 1/2 * s.f_05) (hmax : s.f_max = 2 * s.f_05)
    (hf : 0 < s.f_05) (hth : s.u_th < 1) :
    (∀ s1 s2 : ℚ, s.u_th < s1 → s1 < s2 → recruitF s s1 < recruitF s s2) ∧
      (∀ sp : ℚ, sp ≤ s.u_th → recruitF s sp = 1/2 * s.f_05) := by
  have hden : (0 : ℚ) < 1 - s.u_th := by linarith
  have hcoef : 0 < (s.f_max - s.f_min) / (1 - s.u_th) := by
    apply div_pos _ hden
    rw [hmin, hmax]; linarith
  constructor
  · intro s1 s2 h1 h2
    have h2' : s.u_th < s2 := lt_trans h1 h2
    rw [recruitF, recruitF, if_pos h1, if_pos h2']
    have := mul_lt_mul_of_pos_left h2 hcoef
    linarith
  · intro sp hsp
    rw [recruitF, if_neg (not_lt.mpr hsp), hmin]

theorem recruitment_monotone_witness :
    (mkSlowTwitchFiber (1/100) 0 1 0 1).f_min =
        1/2 * (mkSlowTwitchFiber (1/100) 0 1 0 1).f_05 ∧
      (0 : ℚ) < (mkSlowTwitchFiber (1/100) 0 1 0 1).f_05 ∧
      (mkSlowTwitchFiber (1/100) 0 1 0 1).u_th < 1 ∧
      recruitF (mkSlowTwitchFiber (1/100) 0 1 0 1) (1/2) <
        recruitF (mkSlowTwitchFiber (1/100) 0 1 0 1) (7/10) ∧
      recruitF (mkSlowTwitchFiber (1/100) 0 1 0 1) (1/2000) =
        1/2 * (mkSlowTwitchFiber (1/100) 0 1 0 1).f_05 :=
  ⟨rfl, by norm_num [mkSlowTwitchFiber, mkFiber],
    by norm_num [mkSlowTwitchFiber, mkFiber],
    (recruitment_monotone (mkSlowTwitchFiber (1/100) 0 1 0 1)
      rfl rfl (by norm_num [mkSlowTwitchFiber, mkFiber])
      (by norm_num [mkSlowTwitchFiber, mkFiber])).1 (1/2) (7/10)
      (by norm_num [mkSlowTwitchFiber, mkFiber]) (by norm_num),
    (recruitment_monotone (mkSlowTwitchFiber (1/100) 0 1 0 1)
      rfl rfl (by norm_num [mkSlowTwitchFiber, mkFiber])
      (by norm_num [mkSlowTwitchFiber, mkFiber])).2 (1/2000)
      (by norm_num [mkSlowTwitchFiber, mkFiber])⟩

end MouseLoco
